import Mathlib

/-!
Shallow embedding of the `python-shell` pipeline library
(`src/python-shell.py`) and proofs about its specification.

A `Pipeline` is a pure description; the four concrete variants of the
source (`ShellCommandPipeline`, `CombinedPipeline`, `FileInputPipeline`,
`StreamInputPipeline`) become the four constructors of an inductive type.
Spawning is embedded as a state-passing function that records the
externally visible operations (process creation, stream/file open and
close) as a trace of events; external behaviour (whether the OS refuses
to create a process, what a child writes, when it exits) is supplied by
oracle parameters.  Python exceptions are embedded as `Except` errors.
Machine-level details that no claim touches (actual file descriptors,
byte buffering) are abstracted to identifiers.
-/

/-- Python exceptions that the embedded code can raise. -/
inductive PyError
  | attributeError
  | typeError
  | indexError
  | spawnFailure
  | calledProcessError (code : Int)
  deriving DecidableEq, Repr

/-- Environment mappings (Python `dict` of strings), as association lists. -/
abbrev EnvMap := List (String × String)

/-- Python `dict.__setitem__`: overwrite the value when the key is present,
otherwise append the binding at the end. -/
def dictSet (m : EnvMap) (k v : String) : EnvMap :=
  if m.any (fun kv => kv.1 = k) then
    m.map (fun kv => if kv.1 = k then (k, v) else kv)
  else
    m ++ [(k, v)]

/-- Python `base.update(overlay)`: fold `dictSet` over the overlay. -/
def dictUpdate (base overlay : EnvMap) : EnvMap :=
  overlay.foldl (fun acc kv => dictSet acc kv.1 kv.2) base

/-- Python `env or kwargs` on the `with_env(env=None, **kwargs)` signature:
`None` and the empty dict are falsy, so they select `kwargs`. -/
def pyOrEnv (env : Option EnvMap) (kwargs : EnvMap) : EnvMap :=
  match env with
  | some e => if e.isEmpty then kwargs else e
  | Option.none => kwargs

/-- The value held in `StreamInputPipeline.input_stream`: Python `None`,
an integer descriptor, or a file-like object with `fileno` (abstracted to
a stream identifier). -/
inductive StreamSrc
  | noneS
  | fd (n : Int)
  | fileno (h : Nat)
  deriving DecidableEq, Repr

/-- The pipeline descriptions of the source: `ShellCommandPipeline`
(argv plus optional env overlay), `CombinedPipeline` (left | right),
`FileInputPipeline` (input_filename, inner pipeline) and
`StreamInputPipeline` (input_stream, inner pipeline). -/
inductive Pipeline
  | shellCommand (argv : List String) (env : Option EnvMap)
  | combined (left right : Pipeline)
  | fileInput (input_filename : String) (pipeline : Pipeline)
  | streamInput (input_stream : StreamSrc) (pipeline : Pipeline)
  deriving DecidableEq, Repr

/-- `Pipeline.__or__`: `self | other` builds `CombinedPipeline(self, other)`. -/
def Pipeline.orOp (self other : Pipeline) : Pipeline :=
  Pipeline.combined self other

/-- `with_env` of each variant.  `ShellCommandPipeline.with_env` rebuilds
the command with the new overlay (`ShellCommandPipeline(self.argv, env or
kwargs)`), discarding any previous one.  `CombinedPipeline` and
`FileInputPipeline` distribute the overlay to their inner pipelines.
`StreamInputPipeline.with_env` evaluates `self.input_filename` first
(Python evaluates constructor arguments left to right), and
`StreamInputPipeline` never sets an `input_filename` attribute — only
`input_stream` — so the attribute lookup raises `AttributeError` before
any recursion happens. -/
def Pipeline.with_env (p : Pipeline) (env : Option EnvMap) (kwargs : EnvMap) :
    Except PyError Pipeline :=
  match p with
  | .shellCommand argv _ =>
      Except.ok (.shellCommand argv (some (pyOrEnv env kwargs)))
  | .combined l r => do
      let e := pyOrEnv env kwargs
      let l2 ← Pipeline.with_env l (some e) []
      let r2 ← Pipeline.with_env r (some e) []
      Except.ok (.combined l2 r2)
  | .fileInput fn inner => do
      let e := pyOrEnv env kwargs
      let inner2 ← Pipeline.with_env inner (some e) []
      Except.ok (.fileInput fn inner2)
  | .streamInput _ _ =>
      Except.error PyError.attributeError

/-- The possible runtime types of the argument of `in_from`:
a path (str, bytes or `os.PathLike`), a `Pipeline`, Python `None`,
an `int` descriptor, a file-like object with `fileno`, or anything else. -/
inductive InSource
  | path (s : String)
  | pipe (p : Pipeline)
  | noneV
  | fd (n : Int)
  | fileLike (h : Nat)
  | other
  deriving Repr

/-- `Pipeline.in_from`: dispatch on the runtime type of `input_stream`
exactly as the source's `isinstance` chain does; unsupported types raise
`TypeError`. -/
def Pipeline.in_from (self : Pipeline) (input_stream : InSource) :
    Except PyError Pipeline :=
  match input_stream with
  | .path s => Except.ok (.fileInput s self)
  | .pipe p => Except.ok (Pipeline.orOp p self)
  | .noneV => Except.ok (.streamInput StreamSrc.noneS self)
  | .fd n => Except.ok (.streamInput (StreamSrc.fd n) self)
  | .fileLike h => Except.ok (.streamInput (StreamSrc.fileno h) self)
  | .other => Except.error PyError.typeError

/-- Observable state of a `RunningCombinedPipeline` for polling: what the
two children's `poll()` would currently return (`none` = still running),
and the cached combined `returncode`. -/
structure RCPState where
  leftPoll : Option Int
  rightPoll : Option Int
  returncode : Option Int
  deriving DecidableEq, Repr

/-- `RunningCombinedPipeline.poll`: return the cached code when resolved;
otherwise poll `left`, return `None` when it is still running, else poll
`right` and cache `left or right` (Python `or`: `left` when nonzero,
else whatever `right` returned). -/
def RunningCombinedPipeline.poll (s : RCPState) : RCPState × Option Int :=
  match s.returncode with
  | some rc => (s, some rc)
  | Option.none =>
    match s.leftPoll with
    | Option.none => (s, Option.none)
    | some left =>
      let rc := if left ≠ 0 then some left else s.rightPoll
      ({ s with returncode := rc }, rc)

/-- The two blocking calls `RunningCombinedPipeline.wait` issues on its
children, with the timeout argument each receives. -/
inductive WaitCall
  | leftWait (timeout : Option ℚ)
  | rightWait (timeout : Option ℚ)
  deriving DecidableEq, Repr

/-- `RunningCombinedPipeline.wait`, projected to the sequence of child
`wait` calls it performs.  `start_time` is the clock value at entry
(`time.time()`), `t1` the time `left.wait` takes, so the second
`time.time()` reads `start_time + t1`.  The source computes
`remaining_timeout = time.time() - start_time` — the elapsed time
itself — and passes `max(remaining_timeout, 0)` to `right.wait`. -/
def RunningCombinedPipeline.waitCalls (returncode : Option Int)
    (timeout : Option ℚ) (start_time t1 : ℚ) : List WaitCall :=
  match returncode with
  | some _ => []
  | Option.none =>
    match timeout with
    | Option.none => [WaitCall.leftWait Option.none, WaitCall.rightWait Option.none]
    | some T =>
      let finish := start_time + t1
      let remaining_timeout := finish - start_time
      [WaitCall.leftWait (some T), WaitCall.rightWait (some (max remaining_timeout 0))]

/-- Python's universal line-break characters for `str.splitlines`. -/
def isLineBreak (c : Char) : Bool :=
  c = '\n' || c = '\r' || c = '\x0b' || c = '\x0c' ||
  c = '\x1c' || c = '\x1d' || c = '\x1e' || c = '\x85' ||
  c = '\u2028' || c = '\u2029'

/-- Worker for `str.splitlines`: `acc` holds the current line reversed;
`"\r\n"` counts as a single boundary; a trailing fragment is emitted only
when non-empty (so a terminal newline adds no empty line and `""` gives
`[]`). -/
def pySplitlinesAux : List Char → List Char → List String
  | [], acc => if acc.isEmpty then [] else [String.mk acc.reverse]
  | '\r' :: '\n' :: rest, acc => String.mk acc.reverse :: pySplitlinesAux rest []
  | c :: rest, acc =>
    if isLineBreak c then String.mk acc.reverse :: pySplitlinesAux rest []
    else pySplitlinesAux rest (c :: acc)

/-- Python `str.splitlines()`. -/
def pySplitlines (s : String) : List String :=
  pySplitlinesAux s.data []

/-- `Pipeline.lines`, as a function of the decoded output text of the
pipeline (`self.output()`): `output().splitlines()`. -/
def Pipeline.lines (output : String) : List String :=
  pySplitlines output

/-- Python `list[i]`: `IndexError` out of range. -/
def pyIndex (l : List String) (i : Nat) : Except PyError String :=
  match l.get? i with
  | some v => Except.ok v
  | Option.none => Except.error PyError.indexError

/-- `Pipeline.line`, as a function of the decoded output text:
`self.lines()[0]`. -/
def Pipeline.line (output : String) : Except PyError String :=
  pyIndex (Pipeline.lines output) 0

/-- What may be passed as a `stdin`/`stdout`/`stderr` argument of `spawn`:
Python `None` (inherit the caller's stream), `subprocess.PIPE`, an open
stream object (identified by a stream id), or a raw integer descriptor. -/
inductive StdSpec
  | inherit
  | pipe
  | stream (sid : Nat)
  | fd (n : Int)
  deriving DecidableEq, Repr

/-- Events a spawn records: a `subprocess.Popen` call (with the child's
environment and stream wiring), a stream `close()`, and opening/closing a
file via the `with open(...)` block of `FileInputPipeline.spawn`. -/
inductive SpawnEvent
  | popen (pid : Nat) (argv : List String) (env : Option EnvMap)
      (stdin stdout stderr : StdSpec)
  | closeStream (sid : Nat)
  | openFile (fid : Nat) (input_filename : String)
  | closeFile (fid : Nat)
  | readStream (sid : Nat)
  | waited (code : Int)
  deriving DecidableEq, Repr

/-- State threaded through spawning: a fresh-identifier counter, the trace
of recorded events, and the ambient process environment (`os.environ`). -/
structure SpawnSt where
  nextId : Nat
  events : List SpawnEvent
  environ : EnvMap
  deriving DecidableEq, Repr

/-- A `subprocess.Popen` handle: its `stdin`/`stdout`/`stderr` attributes
are stream objects only for the arguments passed as `PIPE`, else `None`. -/
structure Popen where
  pid : Nat
  stdin : Option Nat
  stdout : Option Nat
  stderr : Option Nat
  deriving DecidableEq, Repr

/-- What `spawn` returns: a plain `Popen` or a `RunningCombinedPipeline`,
which wraps two handles and copies `stdin` from `left`, `stdout` and
`stderr` from `right` in its `__init__`. -/
inductive Handle
  | proc (p : Popen)
  | runningCombined (left right : Handle) (stdin stdout stderr : Option Nat)
  deriving DecidableEq, Repr

/-- The `stdin` attribute of a handle. -/
def Handle.stdinS : Handle → Option Nat
  | .proc p => p.stdin
  | .runningCombined _ _ i _ _ => i

/-- The `stdout` attribute of a handle. -/
def Handle.stdoutS : Handle → Option Nat
  | .proc p => p.stdout
  | .runningCombined _ _ _ o _ => o

/-- The `stderr` attribute of a handle. -/
def Handle.stderrS : Handle → Option Nat
  | .proc p => p.stderr
  | .runningCombined _ _ _ _ e => e

/-- Allocate a stream identifier for a redirection argument: `PIPE` yields
a fresh stream, everything else yields no handle-owned stream. -/
def allocStream (spec : StdSpec) (n : Nat) : Option Nat × Nat :=
  match spec with
  | .pipe => (some n, n + 1)
  | _ => (Option.none, n)

/-- The `stdin` specification a `StreamInputPipeline` forwards: its stored
`None`, descriptor, or file-like object, passed straight through. -/
def streamToSpec : StreamSrc → StdSpec
  | .noneS => StdSpec.inherit
  | .fd n => StdSpec.fd n
  | .fileno h => StdSpec.stream h

/-- `spawn` of each pipeline variant, as a state-passing trace-recording
function.  `fails argv` is the oracle telling whether `subprocess.Popen`
refuses to start that argv (raising an OS error).

* `ShellCommandPipeline.spawn`: when `self.env` is `None` the child env is
  `None` (inherit `os.environ` as-is); otherwise it is
  `os.environ.copy()` updated with the overlay.  `os.environ` itself is
  never written.
* `CombinedPipeline.spawn`: spawn `left` with `stdout=PIPE`, then spawn
  `right` with `stdin=left.stdout`, then `left.stdout.close()`, then wrap
  both in a `RunningCombinedPipeline`.  There is no `try`/`finally`, so a
  failure in `right`'s spawn skips the close.  (`left.stdout` being `None`
  would make `.close()` raise `AttributeError`; with `stdout=PIPE` this
  cannot happen, but the embedding keeps the case total.)
* `FileInputPipeline.spawn`: `with open(input_filename, 'rb')` — open the
  file, spawn the inner pipeline with the file as `stdin`, and close the
  file when the block exits, also when the inner spawn raises.  The
  caller's `stdin` argument is ignored.
* `StreamInputPipeline.spawn`: forward the stored stream as `stdin`. -/
def Pipeline.spawn (fails : List String → Bool) :
    Pipeline → StdSpec → StdSpec → StdSpec → SpawnSt →
    Except PyError Handle × SpawnSt
  | .shellCommand argv envOpt, si, so, se, st =>
    if fails argv then (Except.error PyError.spawnFailure, st)
    else
      let pid := st.nextId
      let (inS, n1) := allocStream si (pid + 1)
      let (outS, n2) := allocStream so n1
      let (errS, n3) := allocStream se n2
      let childEnv := match envOpt with
        | Option.none => Option.none
        | some e => some (dictUpdate st.environ e)
      (Except.ok (Handle.proc ⟨pid, inS, outS, errS⟩),
       { st with nextId := n3,
                 events := st.events ++ [SpawnEvent.popen pid argv childEnv si so se] })
  | .combined l r, si, so, se, st =>
    match Pipeline.spawn fails l si StdSpec.pipe se st with
    | (Except.error e, st1) => (Except.error e, st1)
    | (Except.ok lh, st1) =>
      let rsi := match lh.stdoutS with
        | some sid => StdSpec.stream sid
        | Option.none => StdSpec.inherit
      match Pipeline.spawn fails r rsi so se st1 with
      | (Except.error e, st2) => (Except.error e, st2)
      | (Except.ok rh, st2) =>
        match lh.stdoutS with
        | Option.none => (Except.error PyError.attributeError, st2)
        | some sid =>
          (Except.ok (Handle.runningCombined lh rh lh.stdinS rh.stdoutS rh.stderrS),
           { st2 with events := st2.events ++ [SpawnEvent.closeStream sid] })
  | .fileInput fn inner, _si, so, se, st =>
    let fid := st.nextId
    let st1 : SpawnSt :=
      { st with nextId := fid + 1, events := st.events ++ [SpawnEvent.openFile fid fn] }
    match Pipeline.spawn fails inner (StdSpec.stream fid) so se st1 with
    | (res, st2) => (res, { st2 with events := st2.events ++ [SpawnEvent.closeFile fid] })
  | .streamInput s inner, _si, so, se, st =>
    Pipeline.spawn fails inner (streamToSpec s) so se st

/-- External behaviour of one captured run: the bytes read from the
child's stdout and the exit status `wait` resolves to. -/
structure RunBehavior where
  outBytes : List Nat
  exitCode : Int
  deriving DecidableEq, Repr

/-- `Pipeline.raw_output`: `spawn(stdout=subprocess.PIPE)` (stdin and
stderr default to `None`), read the captured stdout to completion, close
it, `wait()`, and return the bytes read.  No return-code check is
performed on any path.  (`output()` is this, decoded.) -/
def Pipeline.raw_output (fails : List String → Bool) (p : Pipeline)
    (beh : RunBehavior) (st : SpawnSt) :
    Except PyError (List Nat) × SpawnSt :=
  match Pipeline.spawn fails p StdSpec.inherit StdSpec.pipe StdSpec.inherit st with
  | (Except.error e, st1) => (Except.error e, st1)
  | (Except.ok h, st1) =>
    match h.stdoutS with
    | Option.none => (Except.error PyError.attributeError, st1)
    | some sid =>
      (Except.ok beh.outBytes,
       { st1 with events := st1.events ++
           [SpawnEvent.readStream sid, SpawnEvent.closeStream sid,
            SpawnEvent.waited beh.exitCode] })

/-- An oracle under which every `Popen` call succeeds. -/
def noFail : List String → Bool := fun _ => false

/-- An oracle under which every `Popen` call raises. -/
def allFail : List String → Bool := fun _ => true


/-- Spawning only appends to the event trace. -/
theorem spawn_events_mono (fails : List String → Bool) (p : Pipeline) :
    ∀ si so se st, ∃ tl,
      ((Pipeline.spawn fails p si so se st).2).events = st.events ++ tl := by
  induction p with
  | shellCommand argv envOpt =>
    intro si so se st
    by_cases h : fails argv
    · exact ⟨[], by simp [Pipeline.spawn, h]⟩
    · simp only [Pipeline.spawn, h, Bool.false_eq_true, if_false]
      exact ⟨_, rfl⟩
  | combined l r ihl ihr =>
    intro si so se st
    simp only [Pipeline.spawn]
    split
    case _ e st1 heq =>
      obtain ⟨tl, htl⟩ := ihl si StdSpec.pipe se st
      rw [heq] at htl
      exact ⟨tl, htl⟩
    case _ lh st1 heq =>
      obtain ⟨tl1, htl1⟩ := ihl si StdSpec.pipe se st
      rw [heq] at htl1
      dsimp only at htl1
      obtain ⟨tl2, htl2⟩ := ihr
        (match lh.stdoutS with
          | some sid => StdSpec.stream sid
          | Option.none => StdSpec.inherit) so se st1
      split
      case _ e st2 heq2 =>
        rw [heq2] at htl2
        dsimp only at htl2
        exact ⟨tl1 ++ tl2, by simp [htl2, htl1]⟩
      case _ rh st2 heq2 =>
        rw [heq2] at htl2
        dsimp only at htl2
        cases hso : lh.stdoutS with
        | none =>
          exact ⟨tl1 ++ tl2, by simp [htl2, htl1]⟩
        | some sid =>
          exact ⟨tl1 ++ (tl2 ++ [SpawnEvent.closeStream sid]), by simp [htl2, htl1]⟩
  | fileInput fn inner ih =>
    intro si so se st
    obtain ⟨tl, htl⟩ := ih (StdSpec.stream st.nextId) so se
      { st with nextId := st.nextId + 1,
                events := st.events ++ [SpawnEvent.openFile st.nextId fn] }
    simp only [Pipeline.spawn]
    refine ⟨SpawnEvent.openFile st.nextId fn :: (tl ++ [SpawnEvent.closeFile st.nextId]), ?_⟩
    rw [htl]
    simp
  | streamInput s inner ih =>
    intro si so se st
    exact ih (streamToSpec s) so se st

/-- Spawning never writes the ambient environment `os.environ`. -/
theorem spawn_environ_eq (fails : List String → Bool) (p : Pipeline) :
    ∀ si so se st, ((Pipeline.spawn fails p si so se st).2).environ = st.environ := by
  induction p with
  | shellCommand argv envOpt =>
    intro si so se st
    by_cases h : fails argv
    · simp [Pipeline.spawn, h]
    · simp [Pipeline.spawn, h]
  | combined l r ihl ihr =>
    intro si so se st
    simp only [Pipeline.spawn]
    split
    case _ e st1 heq =>
      have h1 := ihl si StdSpec.pipe se st
      rw [heq] at h1
      exact h1
    case _ lh st1 heq =>
      have h1 := ihl si StdSpec.pipe se st
      rw [heq] at h1
      dsimp only at h1
      have h2 := ihr
        (match lh.stdoutS with
          | some sid => StdSpec.stream sid
          | Option.none => StdSpec.inherit) so se st1
      split
      case _ e st2 heq2 =>
        rw [heq2] at h2
        dsimp only at h2
        rw [h2, h1]
      case _ rh st2 heq2 =>
        rw [heq2] at h2
        dsimp only at h2
        cases hso : lh.stdoutS with
        | none => rw [h2, h1]
        | some sid => simp [h2, h1]
  | fileInput fn inner ih =>
    intro si so se st
    simp only [Pipeline.spawn]
    simpa using ih (StdSpec.stream st.nextId) so se
      { st with nextId := st.nextId + 1,
                events := st.events ++ [SpawnEvent.openFile st.nextId fn] }
  | streamInput s inner ih =>
    intro si so se st
    exact ih (streamToSpec s) so se st

/-- C1: the claim says `wait(timeout=T)` gives `left`'s wait budget `T`
and then passes `max(T - t1, 0)` — the remaining budget — to `right`'s
wait.  The code instead computes `remaining_timeout = time.time() -
start_time`, which is the elapsed time `t1` itself, and passes
`max(t1, 0)` to `right.wait`.  At `T = 10`, `t1 = 3` the code hands
`right` 3 seconds where the claim requires `max(10 - 3, 0) = 7`. -/
theorem wait_right_budget_is_elapsed_not_remaining :
    (∀ T start_time t1 : ℚ,
        RunningCombinedPipeline.waitCalls Option.none (some T) start_time t1
          = [WaitCall.leftWait (some T), WaitCall.rightWait (some (max t1 0))])
    ∧ RunningCombinedPipeline.waitCalls Option.none (some 10) 0 3
        = [WaitCall.leftWait (some 10), WaitCall.rightWait (some 3)]
    ∧ (3 : ℚ) ≠ max ((10 : ℚ) - 3) 0 := by
  refine ⟨?_, ?_, by norm_num⟩
  · intro T start_time t1
    simp [RunningCombinedPipeline.waitCalls]
  · simp [RunningCombinedPipeline.waitCalls]

/-- C3: `with_env` on a stream-input-redirected pipeline does not return
a new description: `StreamInputPipeline.with_env` reads
`self.input_filename`, an attribute the class never sets (its `__init__`
stores `input_stream`), so the call raises `AttributeError`. -/
theorem with_env_streamInput_attribute_error :
    Pipeline.with_env
      (Pipeline.streamInput StreamSrc.noneS (Pipeline.shellCommand ["cat"] Option.none))
      (some [("A", "1")]) []
      = Except.error PyError.attributeError := rfl

/-- C4: when both children have exited with codes `L` and `R`,
`RunningCombinedPipeline.poll` resolves and caches the combined code
`L` if `L` is nonzero, else `R`; and when the left child has not exited
it returns `None` (still running) without touching the right child's
state. -/
theorem poll_left_biased :
    (∀ L R : Int,
        RunningCombinedPipeline.poll ⟨some L, some R, Option.none⟩
          = (⟨some L, some R, some (if L ≠ 0 then L else R)⟩,
             some (if L ≠ 0 then L else R)))
    ∧ (∀ rp : Option Int,
        RunningCombinedPipeline.poll ⟨Option.none, rp, Option.none⟩
          = (⟨Option.none, rp, Option.none⟩, Option.none)) := by
  constructor
  · intro L R
    by_cases h : L = 0
    · subst h
      simp [RunningCombinedPipeline.poll]
    · simp [RunningCombinedPipeline.poll, h]
  · intro rp
    rfl

/-- C6: `ShellCommandPipeline.with_env` keeps the argv and installs the
given overlay, and a second `with_env` replaces (not merges) the first:
`p.with_env(a).with_env(b)` describes the same command as
`p.with_env(b)`. -/
theorem with_env_replaces_overlay :
    ∀ (argv : List String) (env0 a b : Option EnvMap) (ka kb : EnvMap),
      Pipeline.with_env (Pipeline.shellCommand argv env0) a ka
        = Except.ok (Pipeline.shellCommand argv (some (pyOrEnv a ka)))
      ∧ (Pipeline.with_env (Pipeline.shellCommand argv env0) a ka).bind
            (fun q => Pipeline.with_env q b kb)
          = Pipeline.with_env (Pipeline.shellCommand argv env0) b kb := by
  intro argv env0 a b ka kb
  exact ⟨rfl, rfl⟩

/-- C8: `in_from` dispatches on the runtime type of its argument: paths
wrap in `FileInputPipeline`, pipelines compose via the pipe operator with
the source as left stage, `None`/descriptors/streams wrap in
`StreamInputPipeline`, and anything else raises `TypeError`. -/
theorem in_from_dispatch :
    ∀ p : Pipeline,
      (∀ s, Pipeline.in_from p (InSource.path s)
          = Except.ok (Pipeline.fileInput s p))
      ∧ (∀ q, Pipeline.in_from p (InSource.pipe q)
          = Except.ok (Pipeline.orOp q p))
      ∧ Pipeline.in_from p InSource.noneV
          = Except.ok (Pipeline.streamInput StreamSrc.noneS p)
      ∧ (∀ n, Pipeline.in_from p (InSource.fd n)
          = Except.ok (Pipeline.streamInput (StreamSrc.fd n) p))
      ∧ (∀ h, Pipeline.in_from p (InSource.fileLike h)
          = Except.ok (Pipeline.streamInput (StreamSrc.fileno h) p))
      ∧ Pipeline.in_from p InSource.other = Except.error PyError.typeError := by
  intro p
  exact ⟨fun s => rfl, fun q => rfl, rfl, fun n => rfl, fun h => rfl, rfl⟩

/-- C10: `line()` is `lines()[0]`: it returns the first element of
`lines()`, and on empty output (`lines()` empty) it raises `IndexError`
rather than returning an empty string or `None`. -/
theorem line_is_first_of_lines :
    (∀ (output x : String) (xs : List String),
        Pipeline.lines output = x :: xs → Pipeline.line output = Except.ok x)
    ∧ Pipeline.line "" = Except.error PyError.indexError := by
  constructor
  · intro out x xs h
    simp [Pipeline.line, pyIndex, h]
  · rfl

/-- Witness for C10 at the concrete outputs `"hi"` and `""`. -/
theorem line_is_first_of_lines_witness :
    Pipeline.line "hi" = Except.ok "hi" :=
  line_is_first_of_lines.1 "hi" "hi" [] (by decide)

/-- C2 counterexample: the claim says `output()`/`raw_output()` fails
with a NonZeroExit error whenever the combined exit status is nonzero.
It does not: at the concrete run where the child writes bytes
`[104, 105]` and exits 1, `raw_output` returns the bytes — the source
never calls `check_return_code` on this path. -/
theorem raw_output_nonzero_exit_counterexample :
    ¬ ∀ (p : Pipeline) (beh : RunBehavior) (st : SpawnSt),
        beh.exitCode ≠ 0 →
        ∃ e, (Pipeline.raw_output noFail p beh st).1 = Except.error e := by
  intro hcl
  obtain ⟨e, he⟩ := hcl (Pipeline.shellCommand ["false"] Option.none)
    ⟨[104, 105], 1⟩ ⟨0, [], []⟩ (by decide)
  have hval : (Pipeline.raw_output noFail (Pipeline.shellCommand ["false"] Option.none)
      ⟨[104, 105], 1⟩ ⟨0, [], []⟩).1 = Except.ok [104, 105] := rfl
  rw [hval] at he
  exact Except.noConfusion he

/-- C2 amended: `raw_output` spawns with `stdout=subprocess.PIPE`, reads
the captured stream to completion, closes it, waits for exit, and
returns the captured bytes **regardless of the exit status**; no
return-code check is performed and no NonZeroExit error is raised. -/
theorem raw_output_returns_bytes_unchecked
    (fails : List String → Bool) (p : Pipeline) (beh : RunBehavior) (st : SpawnSt)
    (h : Handle) (st1 : SpawnSt) (sid : Nat)
    (hsp : Pipeline.spawn fails p StdSpec.inherit StdSpec.pipe StdSpec.inherit st
            = (Except.ok h, st1))
    (hout : h.stdoutS = some sid) :
    Pipeline.raw_output fails p beh st
      = (Except.ok beh.outBytes,
         { st1 with events := st1.events ++
             [SpawnEvent.readStream sid, SpawnEvent.closeStream sid,
              SpawnEvent.waited beh.exitCode] }) := by
  simp [Pipeline.raw_output, hsp, hout]

/-- Witness for the amended C2 at a concrete run exiting 1. -/
theorem raw_output_returns_bytes_unchecked_witness :
    Pipeline.raw_output noFail (Pipeline.shellCommand ["false"] Option.none)
        ⟨[104, 105], 1⟩ ⟨0, [], []⟩
      = (Except.ok [104, 105],
         ⟨2, [SpawnEvent.popen 0 ["false"] Option.none
                StdSpec.inherit StdSpec.pipe StdSpec.inherit,
              SpawnEvent.readStream 1, SpawnEvent.closeStream 1,
              SpawnEvent.waited 1], []⟩) :=
  raw_output_returns_bytes_unchecked noFail
    (Pipeline.shellCommand ["false"] Option.none) ⟨[104, 105], 1⟩ ⟨0, [], []⟩
    (Handle.proc ⟨0, Option.none, some 1, Option.none⟩)
    ⟨2, [SpawnEvent.popen 0 ["false"] Option.none
          StdSpec.inherit StdSpec.pipe StdSpec.inherit], []⟩
    1 rfl rfl

/-- C5: `CombinedPipeline.spawn` spawns `left` with the caller's stdin,
an internal pipe as stdout and the caller's stderr; then — strictly
after, in the state `left`'s spawn produced — spawns `right` with
`left`'s stdout end as stdin and the caller's stdout/stderr; then closes
the parent's copy of the pipe end; and returns a
`RunningCombinedPipeline` whose stdin is `left`'s and whose
stdout/stderr are `right`'s.  The trace grows by exactly `left`'s
events, then `right`'s, then the close. -/
theorem combined_spawn_steps
    (fails : List String → Bool) (l r : Pipeline) (si so se : StdSpec)
    (st st1 st2 : SpawnSt) (lh rh : Handle) (sid : Nat)
    (hl : Pipeline.spawn fails l si StdSpec.pipe se st = (Except.ok lh, st1))
    (hout : lh.stdoutS = some sid)
    (hr : Pipeline.spawn fails r (StdSpec.stream sid) so se st1 = (Except.ok rh, st2)) :
    Pipeline.spawn fails (Pipeline.combined l r) si so se st
      = (Except.ok (Handle.runningCombined lh rh lh.stdinS rh.stdoutS rh.stderrS),
         { st2 with events := st2.events ++ [SpawnEvent.closeStream sid] })
    ∧ ∃ levs revs, st1.events = st.events ++ levs
        ∧ st2.events = st1.events ++ revs := by
  constructor
  · simp [Pipeline.spawn, hl, hout, hr]
  · obtain ⟨levs, h1⟩ := spawn_events_mono fails l si StdSpec.pipe se st
    rw [hl] at h1
    obtain ⟨revs, h2⟩ := spawn_events_mono fails r (StdSpec.stream sid) so se st1
    rw [hr] at h2
    exact ⟨levs, revs, h1, h2⟩

/-- Witness for C5: `spawn` of `ShellCommandPipeline(["a"]) |
ShellCommandPipeline(["b"])` from a fresh state. -/
theorem combined_spawn_steps_witness :
    Pipeline.spawn noFail
        (Pipeline.combined (Pipeline.shellCommand ["a"] Option.none)
          (Pipeline.shellCommand ["b"] Option.none))
        StdSpec.inherit StdSpec.inherit StdSpec.inherit ⟨0, [], []⟩
      = (Except.ok (Handle.runningCombined
            (Handle.proc ⟨0, Option.none, some 1, Option.none⟩)
            (Handle.proc ⟨2, Option.none, Option.none, Option.none⟩)
            Option.none Option.none Option.none),
         ⟨3, [SpawnEvent.popen 0 ["a"] Option.none
                StdSpec.inherit StdSpec.pipe StdSpec.inherit,
              SpawnEvent.popen 2 ["b"] Option.none
                (StdSpec.stream 1) StdSpec.inherit StdSpec.inherit,
              SpawnEvent.closeStream 1], []⟩)
    ∧ ∃ levs revs,
        ([SpawnEvent.popen 0 ["a"] Option.none
            StdSpec.inherit StdSpec.pipe StdSpec.inherit] : List SpawnEvent)
          = [] ++ levs
        ∧ ([SpawnEvent.popen 0 ["a"] Option.none
              StdSpec.inherit StdSpec.pipe StdSpec.inherit,
            SpawnEvent.popen 2 ["b"] Option.none
              (StdSpec.stream 1) StdSpec.inherit StdSpec.inherit] : List SpawnEvent)
          = [SpawnEvent.popen 0 ["a"] Option.none
              StdSpec.inherit StdSpec.pipe StdSpec.inherit] ++ revs :=
  combined_spawn_steps noFail
    (Pipeline.shellCommand ["a"] Option.none) (Pipeline.shellCommand ["b"] Option.none)
    StdSpec.inherit StdSpec.inherit StdSpec.inherit
    ⟨0, [], []⟩
    ⟨2, [SpawnEvent.popen 0 ["a"] Option.none
          StdSpec.inherit StdSpec.pipe StdSpec.inherit], []⟩
    ⟨3, [SpawnEvent.popen 0 ["a"] Option.none
          StdSpec.inherit StdSpec.pipe StdSpec.inherit,
         SpawnEvent.popen 2 ["b"] Option.none
          (StdSpec.stream 1) StdSpec.inherit StdSpec.inherit], []⟩
    (Handle.proc ⟨0, Option.none, some 1, Option.none⟩)
    (Handle.proc ⟨2, Option.none, Option.none, Option.none⟩)
    1 rfl rfl rfl

/-- C7: `ShellCommandPipeline.spawn` with an overlay launches the child
with a copy of the ambient environment updated with the overlay; the
ambient environment is unchanged after any spawn; and with no overlay
the child env is `None` (inherit the ambient environment as-is). -/
theorem spawn_env_overlay (fails : List String → Bool) (argv : List String)
    (e : EnvMap) (si so se : StdSpec) (st : SpawnSt)
    (hok : fails argv = false) :
    ((Pipeline.spawn fails (Pipeline.shellCommand argv (some e)) si so se st).2).events
        = st.events ++ [SpawnEvent.popen st.nextId argv
            (some (dictUpdate st.environ e)) si so se]
    ∧ (∀ p : Pipeline,
        ((Pipeline.spawn fails p si so se st).2).environ = st.environ)
    ∧ ((Pipeline.spawn fails (Pipeline.shellCommand argv Option.none) si so se st).2).events
        = st.events ++ [SpawnEvent.popen st.nextId argv Option.none si so se] := by
  refine ⟨?_, fun p => spawn_environ_eq fails p si so se st, ?_⟩
  · simp [Pipeline.spawn, hok]
  · simp [Pipeline.spawn, hok]

/-- Witness for C7: ambient `{B: 2}`, overlay `{A: 1}` — the child gets
the updated copy and the ambient mapping is untouched. -/
theorem spawn_env_overlay_witness :
    ((Pipeline.spawn noFail (Pipeline.shellCommand ["env"] (some [("A", "1")]))
        StdSpec.inherit StdSpec.inherit StdSpec.inherit ⟨0, [], [("B", "2")]⟩).2).events
      = [SpawnEvent.popen 0 ["env"] (some [("B", "2"), ("A", "1")])
          StdSpec.inherit StdSpec.inherit StdSpec.inherit] :=
  (spawn_env_overlay noFail ["env"] [("A", "1")] StdSpec.inherit StdSpec.inherit
    StdSpec.inherit ⟨0, [], [("B", "2")]⟩ rfl).1

/-- C9: `FileInputPipeline.spawn` opens the file, spawns the inner
pipeline with the open file as stdin and the caller's stdout/stderr
passed through unchanged, and the `with` block closes the file on every
exit path — the close event is appended whether the inner spawn returned
a handle or raised (`res` covers both). -/
theorem fileInput_spawn_scoped_close
    (fails : List String → Bool) (fn : String) (inner : Pipeline)
    (si so se : StdSpec) (st : SpawnSt)
    (res : Except PyError Handle) (st2 : SpawnSt)
    (hin : Pipeline.spawn fails inner (StdSpec.stream st.nextId) so se
        { st with nextId := st.nextId + 1,
                  events := st.events ++ [SpawnEvent.openFile st.nextId fn] }
      = (res, st2)) :
    Pipeline.spawn fails (Pipeline.fileInput fn inner) si so se st
      = (res, { st2 with events := st2.events ++ [SpawnEvent.closeFile st.nextId] })
    ∧ ∃ innerEvs,
        st2.events ++ [SpawnEvent.closeFile st.nextId]
          = st.events ++ (SpawnEvent.openFile st.nextId fn ::
              (innerEvs ++ [SpawnEvent.closeFile st.nextId])) := by
  constructor
  · simp only [Pipeline.spawn]
    rw [hin]
  · obtain ⟨tl, htl⟩ := spawn_events_mono fails inner (StdSpec.stream st.nextId) so se
      { st with nextId := st.nextId + 1,
                events := st.events ++ [SpawnEvent.openFile st.nextId fn] }
    rw [hin] at htl
    dsimp only at htl
    refine ⟨tl, ?_⟩
    rw [htl]
    simp

/-- Witness for C9 on the exception path: the inner spawn raises
(`allFail` oracle) and the file is still closed. -/
theorem fileInput_spawn_scoped_close_witness :
    Pipeline.spawn allFail
        (Pipeline.fileInput "f" (Pipeline.shellCommand ["x"] Option.none))
        StdSpec.inherit StdSpec.inherit StdSpec.inherit ⟨0, [], []⟩
      = (Except.error PyError.spawnFailure,
         ⟨1, [SpawnEvent.openFile 0 "f", SpawnEvent.closeFile 0], []⟩)
    ∧ ∃ innerEvs,
        ([SpawnEvent.openFile 0 "f"] ++ [SpawnEvent.closeFile 0] : List SpawnEvent)
          = [] ++ (SpawnEvent.openFile 0 "f" ::
              (innerEvs ++ [SpawnEvent.closeFile 0])) :=
  fileInput_spawn_scoped_close allFail "f" (Pipeline.shellCommand ["x"] Option.none)
    StdSpec.inherit StdSpec.inherit StdSpec.inherit ⟨0, [], []⟩
    (Except.error PyError.spawnFailure) ⟨1, [SpawnEvent.openFile 0 "f"], []⟩ rfl
